import Mathlib

/-!
Verification of the Sutra entitlement-gated API client (src/client.ts,
src/tools.ts, src/server.ts) against its specification.

The TypeScript sources are shallowly embedded: the transport/retry pipeline
of `YantraClient.request` becomes a fuel-indexed recursion over a trace of
per-attempt fetch outcomes, the entitlement policy becomes pure functions on
an `Entitlement` record, and query-string construction becomes a pure
function producing the serialized `URLSearchParams` string.
-/

namespace Sutra

/-! ## String utilities

JavaScript's `String.prototype.includes` (substring test), modelled over the
character lists of the strings. -/

/-- Does the first character list start with the second one? -/
def matchesAt : List Char → List Char → Bool
  | _, [] => true
  | [], _ :: _ => false
  | c :: cs, p :: ps => c == p && matchesAt cs ps

/-- Does `pat` occur as a contiguous segment of the given list? -/
def occursIn (pat : List Char) : List Char → Bool
  | [] => matchesAt [] pat
  | c :: cs => matchesAt (c :: cs) pat || occursIn pat cs

/-- JavaScript `s.includes(pat)`. -/
def strIncludes (s pat : String) : Bool :=
  occursIn pat.data s.data

/-! ## Error and transport model (src/client.ts) -/

/-- A JavaScript `Error` value as observed by the client: its `name`
(`"Error"` for plain errors, `"AbortError"` for an aborted fetch) and its
`message`. -/
structure JsError where
  name : String
  message : String
deriving DecidableEq, Repr

/-- Outcome of one `fetch` invocation inside `request`, as seen from the
`try` block, for a call whose parsed response type is `α`:
* `ok v` — `response.ok` and `response.json()` succeeded, parsing to `v`;
* `okBadJson` — `response.ok` but `response.json()` rejected;
* `httpError status bodyText statusText` — `response.ok` was false;
  `bodyText = none` models a failing `response.text()` (the source swallows
  that failure and substitutes the empty string);
* `reject name message` — `fetch` itself rejected with an `Error`
  (`name = "AbortError"` when the timeout controller fired). -/
inductive FetchOutcome (α : Type) where
  | ok (value : α)
  | okBadJson (name message : String)
  | httpError (status : Nat) (bodyText : Option String) (statusText : String)
  | reject (name message : String)
deriving DecidableEq, Repr

/-- Request configuration of `YantraClient` (constructor of src/client.ts).
The base URL and API key fields only decorate the outgoing request and do
not influence any verified property, so they are not carried here. -/
structure SutraConfig where
  timeout : Nat := 10000
  maxRetries : Nat := 3
  retryDelay : Nat := 1000
deriving DecidableEq, Repr

/-- `isRetryableError` checks these fixed transient-network signatures
(src/client.ts line 238). -/
def retryableMessages : List String :=
  ["ECONNRESET", "ECONNREFUSED", "ETIMEDOUT", "ENOTFOUND", "ENETUNREACH"]

/-- `YantraClient.isRetryableError` (src/client.ts lines 236-242): an
`Error` is retryable when its message contains one of the transient-network
signatures or its name is `AbortError`. -/
def isRetryableError (e : JsError) : Bool :=
  retryableMessages.any (fun msg => strIncludes e.message msg) || e.name == "AbortError"

/-- The error thrown for a non-ok response (src/client.ts line 215):
`new Error('Yantra API error <status>: <text or statusText>')`, where an
empty body text (also the substitute for a failed body read) falls back to
`statusText`. -/
def mkApiError (status : Nat) (bodyText : Option String) (statusText : String) : JsError :=
  let text := bodyText.getD ""
  ⟨"Error", "Yantra API error " ++ toString status ++ ": " ++
    (if text = "" then statusText else text)⟩

/-- The error substituted for an `AbortError` (src/client.ts line 221). -/
def timeoutError (cfg : SutraConfig) : JsError :=
  ⟨"Error", "Yantra API request timed out after " ++ toString cfg.timeout ++ "ms"⟩

/-- What arrives at the `catch` handler of `request` for a single attempt:
either the parsed value, or the `Error` that was thrown inside the `try`
block (including the ApiError built for a non-ok status). -/
def attemptResult {α : Type} : FetchOutcome α → Except JsError α
  | .ok v => Except.ok v
  | .okBadJson name message => Except.error ⟨name, message⟩
  | .httpError status bodyText statusText => Except.error (mkApiError status bodyText statusText)
  | .reject name message => Except.error ⟨name, message⟩

/-- The retry decision of the `catch` handler (src/client.ts line 224-225):
`isRetryable && attempt < this.maxRetries`. -/
def shouldRetry (cfg : SutraConfig) (e : JsError) (attempt : Nat) : Bool :=
  isRetryableError e && decide (attempt < cfg.maxRetries)

/-- Observable result of `request`: how many transport invocations happened,
the backoff delays awaited (in order), and the final outcome. -/
structure ReqResult (α : Type) where
  invocations : Nat
  delays : List Nat
  outcome : Except JsError α
deriving Repr

/-- `YantraClient.request` (src/client.ts lines 191-234), indexed by the
current `attempt` and driven by the trace of per-attempt fetch outcomes.
On a caught error: an `AbortError` is replaced by the timeout error and
propagated at once; otherwise a retryable error with attempts remaining
waits `retryDelay * (attempt + 1)` and recurses with `attempt + 1`; any
other error propagates unchanged. `fuel` only bounds the recursion for
termination; it is instantiated with `cfg.maxRetries`, so the `fuel = 0`
fallback is reached only when `attempt < cfg.maxRetries` fails, i.e. never
taken. -/
def requestGo {α : Type} (cfg : SutraConfig) (trace : Nat → FetchOutcome α) :
    Nat → Nat → ReqResult α
  | fuel, attempt =>
    match attemptResult (trace attempt) with
    | Except.ok value => ⟨1, [], Except.ok value⟩
    | Except.error e =>
      if e.name == "AbortError" then
        ⟨1, [], Except.error (timeoutError cfg)⟩
      else if shouldRetry cfg e attempt then
        match fuel with
        | 0 => ⟨1, [], Except.error e⟩
        | fuel' + 1 =>
          let r := requestGo cfg trace fuel' (attempt + 1)
          ⟨r.invocations + 1, cfg.retryDelay * (attempt + 1) :: r.delays, r.outcome⟩
      else
        ⟨1, [], Except.error e⟩

/-- A full `request` call starting at attempt 0. -/
def request {α : Type} (cfg : SutraConfig) (trace : Nat → FetchOutcome α) : ReqResult α :=
  requestGo cfg trace cfg.maxRetries 0

/-! ## Entitlement data model (src/types.ts) -/

/-- Plan tier (`ToolTier` in src/types.ts). -/
inductive ToolTier where
  | free
  | pro
  | enterprise
deriving DecidableEq, Repr

/-- Entitlement status states (`EntitlementStatus` in src/types.ts). -/
inductive EntitlementStatus where
  | active
  | trialing
  | past_due
  | canceled
  | deleted
deriving DecidableEq, Repr

/-- Full entitlement object (`Entitlement` in src/types.ts). Feature flags
are an open-ended string-to-boolean mapping, carried as an association
list. -/
structure Entitlement where
  sub_id : String
  org_id : String
  tier : ToolTier
  seats : Nat
  expires_at : Int
  status : EntitlementStatus
  features : List (String × Bool)
deriving DecidableEq, Repr

/-- Rate-limit record nested in `TierResponse` (src/types.ts). -/
structure TierLimits where
  requests_per_day : Nat
deriving DecidableEq, Repr

/-- Response of `GET /api/auth/tier` (`TierResponse` in src/types.ts); the
optional passthrough metadata fields are unused by the verified
properties and not carried here. -/
structure TierResponse where
  tier : ToolTier
  tools : List String
  limits : TierLimits
deriving DecidableEq, Repr

/-- The free-tier tool names (the `FREE_FALLBACK.tools` list in
src/client.ts and the free set of src/tools.ts). -/
def FREE_TOOLS : List String :=
  ["mahakalp_sf_constraints", "mahakalp_sf_doc_search", "mahakalp_sf_releases"]

/-- The full tool-name set: free tools plus the pro tools of
src/tools.ts. -/
def PRO_TOOLS : List String :=
  FREE_TOOLS ++ ["mahakalp_sf_rules", "mahakalp_sf_patterns", "mahakalp_sf_decision_guides"]

/-- The free-tier fallback returned by `getTier` on any error
(src/client.ts lines 49-57). -/
def FREE_FALLBACK : TierResponse :=
  { tier := ToolTier.free, tools := FREE_TOOLS, limits := ⟨100⟩ }

/-- `YantraClient.getTier` (src/client.ts lines 48-64): the result of the
request to `/api/auth/tier`, with any raised failure caught and replaced by
the free-tier fallback. -/
def getTier (cfg : SutraConfig) (trace : Nat → FetchOutcome TierResponse) : TierResponse :=
  match (request cfg trace).outcome with
  | Except.ok r => r
  | Except.error _ => FREE_FALLBACK

/-- Modelled from the spec: `YantraClient.getEntitlement` is absent from the
sources (src/client.test.ts lines 209-240 test it and src/server.ts line 94
calls it, but no definition is present). Per spec section 4.3, it issues one
read request to the entitlement endpoint and any failure — network, timeout,
malformed response, or a response lacking the entitlement payload — resolves
to absent; the call never raises. The trace's parsed payload is the optional
`entitlement` field of the response. -/
def getEntitlement (cfg : SutraConfig)
    (trace : Nat → FetchOutcome (Option Entitlement)) : Option Entitlement :=
  match (request cfg trace).outcome with
  | Except.ok (some e) => some e
  | Except.ok none => none
  | Except.error _ => none

/-- Modelled from the spec: `YantraClient.isEntitlementValid` is absent from
the sources (src/client.test.ts lines 242-327 test it, but no definition is
present). Per spec section 4.3: absent is invalid; status active or trialing
is valid unconditionally; past_due and deleted are invalid unconditionally;
canceled is valid exactly when `expires_at` is strictly in the future
relative to the current time `now` (grace period). -/
def isEntitlementValid (now : Int) : Option Entitlement → Bool
  | none => false
  | some e =>
    match e.status with
    | .active => true
    | .trialing => true
    | .past_due => false
    | .deleted => false
    | .canceled => decide (now < e.expires_at)

/-- Modelled from the spec: `YantraClient.getAllowedTools` is absent from
the sources (src/client.test.ts lines 329-446 test it and src/server.ts line
95 calls it, but no definition is present). Per spec section 4.4: absent
entitlement, free tier, or an invalid entitlement yields exactly the
free-tier set; a valid entitlement of tier pro or enterprise yields the full
set. -/
def getAllowedTools (now : Int) (ent : Option Entitlement) : List String :=
  match ent with
  | none => FREE_TOOLS
  | some e =>
    if e.tier = ToolTier.free then FREE_TOOLS
    else if isEntitlementValid now (some e) then PRO_TOOLS
    else FREE_TOOLS

/-! ## Tool handlers (src/tools.ts) -/

/-- JavaScript truthiness of an optional string argument: `undefined` and
the empty string are falsy. -/
def jsTruthyStr : Option String → Bool
  | none => false
  | some s => s != ""

/-- JavaScript truthiness of an optional numeric argument: `undefined` and
`0` are falsy. -/
def jsTruthyInt : Option Int → Bool
  | none => false
  | some n => n != 0

/-- JavaScript truthiness of `list?.length`: `undefined` and an empty array
are falsy. -/
def jsTruthyList : Option (List String) → Bool
  | none => false
  | some l => l.length != 0

/-- The text content a tool handler emits (src/tools.ts): either
`JSON.stringify(response, null, 2)` of the parsed response, or
`JSON.stringify` of a `success`/`error` envelope such as
`success:false, error:'query is required'`. -/
inductive ToolContent (α : Type) where
  | responseJson (response : α)
  | envelope (success : Bool) (error : String)
deriving DecidableEq, Repr

/-- A tool call result (`CallToolResult`): one text content plus the
`isError` flag. -/
structure CallToolResult (α : Type) where
  content : ToolContent α
  isError : Bool
deriving DecidableEq, Repr

/-- Arguments of the doc-search tool as received by `handleDocSearch`
(src/tools.ts lines 292-318); every field may be absent. -/
structure DocSearchArgs where
  query : Option String := none
  release_id : Option String := none
  topics : Option (List String) := none
  max_results : Option Int := none

/-- `handleDocSearch` (src/tools.ts lines 292-318): a falsy `query` returns
the `success:false, error:'query is required'` envelope with `isError` set,
performing no request; otherwise the search request runs through the retry
pipeline, a success is serialized, and a raised failure becomes an error
envelope carrying the message. The second component counts transport
invocations made by the handler. -/
def handleDocSearch {α : Type} (cfg : SutraConfig) (args : DocSearchArgs)
    (trace : Nat → FetchOutcome α) : CallToolResult α × Nat :=
  if !jsTruthyStr args.query then
    (⟨ToolContent.envelope false "query is required", true⟩, 0)
  else
    let r := request cfg trace
    match r.outcome with
    | Except.ok resp => (⟨ToolContent.responseJson resp, false⟩, r.invocations)
    | Except.error e => (⟨ToolContent.envelope false e.message, true⟩, r.invocations)

/-! ## Constraints query building (src/client.ts getConstraints) -/

/-- Characters serialized verbatim by `URLSearchParams`
(application/x-www-form-urlencoded). -/
def isUrlSafeChar (c : Char) : Bool :=
  c.isAlphanum || c == '-' || c == '.' || c == '_' || c == '*'

/-- UTF-8 bytes of a code point. -/
def utf8Bytes (n : Nat) : List Nat :=
  if n < 128 then [n]
  else if n < 2048 then [192 + n / 64, 128 + n % 64]
  else if n < 65536 then [224 + n / 4096, 128 + (n / 64) % 64, 128 + n % 64]
  else [240 + n / 262144, 128 + (n / 4096) % 64, 128 + (n / 64) % 64, 128 + n % 64]

/-- Upper-case hexadecimal digit. -/
def hexDigit (n : Nat) : Char :=
  (['0', '1', '2', '3', '4', '5', '6', '7', '8', '9',
    'A', 'B', 'C', 'D', 'E', 'F']).getD n '0'

/-- Percent-encoding of one character's UTF-8 bytes. -/
def percentEncodeChar (c : Char) : String :=
  String.join ((utf8Bytes c.toNat).map
    (fun b => "%" ++ String.singleton (hexDigit (b / 16)) ++ String.singleton (hexDigit (b % 16))))

/-- The application/x-www-form-urlencoded serialization of one component,
as `URLSearchParams.toString` produces it. -/
def formUrlEncode (s : String) : String :=
  String.join (s.data.map (fun c =>
    if isUrlSafeChar c then String.singleton c
    else if c == ' ' then "+"
    else percentEncodeChar c))

/-- Parameter record of `YantraClient.getConstraints` (src/client.ts lines
83-89); every field is optional. -/
structure ConstraintsParams where
  releaseId : Option String := none
  constraintType : Option String := none
  constraintIds : Option (List String) := none
  context : Option String := none
  maxResults : Option Int := none

/-- The name-value pairs `getConstraints` inserts into its `URLSearchParams`
(src/client.ts lines 90-95), in insertion order; each `if (params.x)` guard
is JavaScript truthiness, and `constraintIds` is joined with commas. -/
def constraintsQueryPairs (p : ConstraintsParams) : List (String × String) :=
  (if jsTruthyStr p.releaseId then [("release_id", p.releaseId.getD "")] else [])
  ++ (if jsTruthyStr p.constraintType then [("constraint_type", p.constraintType.getD "")] else [])
  ++ (if jsTruthyList p.constraintIds then
        [("constraint_ids", String.intercalate "," (p.constraintIds.getD []))] else [])
  ++ (if jsTruthyStr p.context then [("context", p.context.getD "")] else [])
  ++ (if jsTruthyInt p.maxResults then [("max_results", toString (p.maxResults.getD 0))] else [])

/-- The serialized query string interpolated into the request path by
`getConstraints` (the template literal of src/client.ts line 97). -/
def constraintsQueryString (p : ConstraintsParams) : String :=
  String.intercalate "&" ((constraintsQueryPairs p).map
    (fun kv => formUrlEncode kv.1 ++ "=" ++ formUrlEncode kv.2))

/-- The full request path built by `getConstraints`. -/
def getConstraintsPath (p : ConstraintsParams) : String :=
  "/api/public/ecosystem/constraints?" ++ constraintsQueryString p


/-! ## Concrete inputs used by witnesses and counterexamples -/

/-- A valid pro-tier entitlement (shape of the fixtures in
src/client.test.ts). -/
def proEnt : Entitlement :=
  ⟨"sub_1", "org_1", ToolTier.pro, 1, 86400, EntitlementStatus.active, []⟩

/-- A trace whose first attempt is an HTTP 500 whose body text happens to
contain a transient-network signature, and whose later attempts succeed. -/
def badBodyTrace : Nat → FetchOutcome Unit :=
  fun n =>
    if n = 0 then FetchOutcome.httpError 500 (some "ECONNRESET") "Internal Server Error"
    else FetchOutcome.ok ()

end Sutra

namespace Sutra

/-! ## Helper lemmas -/

/-- String concatenation is associative. -/
theorem strAppend_assoc (a b c : String) : (a ++ b) ++ c = a ++ (b ++ c) := by
  apply String.ext
  simp [String.data_append]

theorem matchesAt_append (pat r : List Char) : matchesAt (pat ++ r) pat = true := by
  induction pat with
  | nil => simp [matchesAt]
  | cons p ps ih => simp [matchesAt, ih]

theorem occursIn_here (pat r : List Char) : occursIn pat (pat ++ r) = true := by
  cases pat with
  | nil =>
    cases r with
    | nil => rfl
    | cons c cs => simp [occursIn, matchesAt]
  | cons p ps =>
    have h := matchesAt_append (p :: ps) r
    rw [List.cons_append] at h
    simp [occursIn, h]

theorem occursIn_append (pat l r : List Char) : occursIn pat (l ++ (pat ++ r)) = true := by
  induction l with
  | nil => exact occursIn_here pat r
  | cons c cs ih => simp [occursIn, ih]

/-- A string contains any middle piece of a three-part concatenation. -/
theorem strIncludes_mid (a b c : String) : strIncludes (a ++ b ++ c) b = true := by
  show occursIn b.data (a ++ b ++ c).data = true
  rw [String.data_append, String.data_append, List.append_assoc]
  exact occursIn_append b.data a.data c.data

/-- A string contains its final piece. -/
theorem strIncludes_tail (a b : String) : strIncludes (a ++ b) b = true := by
  show occursIn b.data (a ++ b).data = true
  rw [String.data_append]
  have h := occursIn_append b.data a.data []
  simpa using h

/-- Step lemma: a successful attempt ends the call with one invocation. -/
theorem requestGo_ok {α : Type} (cfg : SutraConfig) (trace : Nat → FetchOutcome α)
    (fuel attempt : Nat) (v : α) (h : attemptResult (trace attempt) = Except.ok v) :
    requestGo cfg trace fuel attempt = ⟨1, [], Except.ok v⟩ := by
  rw [requestGo.eq_1, h]

/-- Step lemma: an `AbortError` is replaced by the timeout error and
propagated at once, with no retry. -/
theorem requestGo_abort {α : Type} (cfg : SutraConfig) (trace : Nat → FetchOutcome α)
    (fuel attempt : Nat) (e : JsError) (h : attemptResult (trace attempt) = Except.error e)
    (hname : (e.name == "AbortError") = true) :
    requestGo cfg trace fuel attempt = ⟨1, [], Except.error (timeoutError cfg)⟩ := by
  rw [requestGo.eq_1, h]
  simp [hname]

/-- Step lemma: a non-abort error that the retry policy declines is
propagated unchanged after one invocation. -/
theorem requestGo_noRetry {α : Type} (cfg : SutraConfig) (trace : Nat → FetchOutcome α)
    (fuel attempt : Nat) (e : JsError) (h : attemptResult (trace attempt) = Except.error e)
    (hname : (e.name == "AbortError") = false)
    (hsr : shouldRetry cfg e attempt = false) :
    requestGo cfg trace fuel attempt = ⟨1, [], Except.error e⟩ := by
  rw [requestGo.eq_1, h]
  simp [hname, hsr]

/-- Step lemma: a retried attempt waits `retryDelay * (attempt + 1)` and
continues at `attempt + 1`. -/
theorem requestGo_retry {α : Type} (cfg : SutraConfig) (trace : Nat → FetchOutcome α)
    (fuel attempt : Nat) (e : JsError) (h : attemptResult (trace attempt) = Except.error e)
    (hname : (e.name == "AbortError") = false)
    (hsr : shouldRetry cfg e attempt = true) :
    requestGo cfg trace (fuel + 1) attempt =
      ⟨(requestGo cfg trace fuel (attempt + 1)).invocations + 1,
       cfg.retryDelay * (attempt + 1) :: (requestGo cfg trace fuel (attempt + 1)).delays,
       (requestGo cfg trace fuel (attempt + 1)).outcome⟩ := by
  rw [requestGo.eq_1, h]
  simp [hname, hsr]

/-- Step lemma for the fuel-exhaustion fallback (never reached from
`request`, where fuel starts at `maxRetries`). -/
theorem requestGo_retry_noFuel {α : Type} (cfg : SutraConfig) (trace : Nat → FetchOutcome α)
    (attempt : Nat) (e : JsError) (h : attemptResult (trace attempt) = Except.error e)
    (hname : (e.name == "AbortError") = false)
    (hsr : shouldRetry cfg e attempt = true) :
    requestGo cfg trace 0 attempt = ⟨1, [], Except.error e⟩ := by
  rw [requestGo.eq_1, h]
  simp [hname, hsr]

/-- The delays recorded by `requestGo` follow the linear pattern
`retryDelay * (attempt + 1 + i)` for the i-th recorded delay, for every
trace. -/
theorem requestGo_delays {α : Type} (cfg : SutraConfig) (trace : Nat → FetchOutcome α) :
    ∀ fuel attempt i, i < (requestGo cfg trace fuel attempt).delays.length →
      (requestGo cfg trace fuel attempt).delays.get? i = some (cfg.retryDelay * (attempt + 1 + i)) := by
  intro fuel
  induction fuel with
  | zero =>
    intro attempt i hi
    exfalso
    rcases h : attemptResult (trace attempt) with e | v
    · cases hname : (e.name == "AbortError") with
      | true =>
        rw [requestGo_abort cfg trace 0 attempt e h hname] at hi
        simp at hi
      | false =>
        cases hsr : shouldRetry cfg e attempt with
        | true =>
          rw [requestGo_retry_noFuel cfg trace attempt e h hname hsr] at hi
          simp at hi
        | false =>
          rw [requestGo_noRetry cfg trace 0 attempt e h hname hsr] at hi
          simp at hi
    · rw [requestGo_ok cfg trace 0 attempt v h] at hi
      simp at hi
  | succ f ih =>
    intro attempt i hi
    rcases h : attemptResult (trace attempt) with e | v
    case ok =>
      rw [requestGo_ok cfg trace (f + 1) attempt v h] at hi
      simp at hi
    case error =>
      cases hname : (e.name == "AbortError") with
      | true =>
        rw [requestGo_abort cfg trace (f + 1) attempt e h hname] at hi
        simp at hi
      | false =>
        cases hsr : shouldRetry cfg e attempt with
        | false =>
          rw [requestGo_noRetry cfg trace (f + 1) attempt e h hname hsr] at hi
          simp at hi
        | true =>
          rw [requestGo_retry cfg trace f attempt e h hname hsr] at hi ⊢
          cases i with
          | zero => simp
          | succ j =>
            have hj : j < (requestGo cfg trace f (attempt + 1)).delays.length := by
              simpa using hi
            have := ih (attempt + 1) j hj
            simpa [Nat.add_assoc, Nat.add_comm, Nat.add_left_comm] using this

/-- When every attempt fails with the same retryable non-abort error, the
call performs `maxRetries - attempt + 1` invocations from position
`attempt`, waits the full linear backoff schedule, and propagates that very
error. -/
theorem requestGo_constFail {α : Type} (cfg : SutraConfig) (e : JsError)
    (trace : Nat → FetchOutcome α)
    (hname : (e.name == "AbortError") = false) (hretry : isRetryableError e = true)
    (htr : ∀ n, attemptResult (trace n) = Except.error e) :
    ∀ fuel attempt, attempt ≤ cfg.maxRetries → cfg.maxRetries ≤ attempt + fuel →
      requestGo cfg trace fuel attempt =
        ⟨cfg.maxRetries - attempt + 1,
         (List.range (cfg.maxRetries - attempt)).map (fun i => cfg.retryDelay * (attempt + 1 + i)),
         Except.error e⟩ := by
  intro fuel
  induction fuel with
  | zero =>
    intro attempt h1 h2
    have hEq : attempt = cfg.maxRetries := by omega
    have hsr : shouldRetry cfg e attempt = false := by
      simp [shouldRetry, hretry, hEq]
    rw [requestGo_noRetry cfg trace 0 attempt e (htr attempt) hname hsr, hEq]
    simp
  | succ f ih =>
    intro attempt h1 h2
    by_cases hlt : attempt < cfg.maxRetries
    · have hsr : shouldRetry cfg e attempt = true := by
        simp [shouldRetry, hretry, hlt]
      rw [requestGo_retry cfg trace f attempt e (htr attempt) hname hsr]
      rw [ih (attempt + 1) (by omega) (by omega)]
      have hk : cfg.maxRetries - attempt = cfg.maxRetries - (attempt + 1) + 1 := by omega
      have hfun : ((fun i => cfg.retryDelay * (attempt + 1 + i)) ∘ Nat.succ) =
          (fun i => cfg.retryDelay * (attempt + 1 + 1 + i)) := by
        funext i
        simp only [Function.comp_apply]
        congr 1
        omega
      rw [hk, List.range_succ_eq_map, List.map_cons, List.map_map, hfun]
    · have hEq : attempt = cfg.maxRetries := by omega
      have hsr : shouldRetry cfg e attempt = false := by
        simp [shouldRetry, hretry, hEq]
      rw [requestGo_noRetry cfg trace (f + 1) attempt e (htr attempt) hname hsr, hEq]
      simp

/-- Membership in the keys of a conditionally inserted pair forces that
pair's key. -/
theorem mem_ite_pair {c : Prop} [Decidable c] {k k' v : String}
    (h : k ∈ List.map Prod.fst (if c then [(k', v)] else [])) : k = k' := by
  by_cases hc : c <;> simp_all

/-! ## Claims -/

/-- Claim C1: resolveAllowedTools (getAllowedTools) is a total case
analysis: for every entitlement that is absent, or has tier free, or is not
valid, it returns exactly the 3-element free operation set regardless of any
other field; and for every valid entitlement with tier pro or enterprise it
returns exactly the 6-element full set. -/
theorem tool_access_policy_c1 (now : Int) (ent : Option Entitlement) :
    ((ent = none ∨ ∃ e, ent = some e ∧ (e.tier = ToolTier.free ∨ isEntitlementValid now ent = false)) →
      getAllowedTools now ent =
        ["mahakalp_sf_constraints", "mahakalp_sf_doc_search", "mahakalp_sf_releases"])
    ∧ (∀ e, ent = some e → (e.tier = ToolTier.pro ∨ e.tier = ToolTier.enterprise) →
      isEntitlementValid now ent = true →
      getAllowedTools now ent =
        ["mahakalp_sf_constraints", "mahakalp_sf_doc_search", "mahakalp_sf_releases",
         "mahakalp_sf_rules", "mahakalp_sf_patterns", "mahakalp_sf_decision_guides"]) := by
  constructor
  · rintro (rfl | ⟨e, rfl, hfree | hinv⟩)
    · simp [getAllowedTools, FREE_TOOLS]
    · simp [getAllowedTools, hfree, FREE_TOOLS]
    · simp [getAllowedTools, hinv, FREE_TOOLS]
  · rintro e rfl htier hvalid
    have hne : ¬ (e.tier = ToolTier.free) := by
      rcases htier with h | h <;> simp [h]
    simp [getAllowedTools, hne, hvalid, PRO_TOOLS, FREE_TOOLS]

/-- Witness for C1 at an absent entitlement and at a concrete valid
pro-tier entitlement. -/
theorem tool_access_policy_c1_witness :
    getAllowedTools 0 none =
      ["mahakalp_sf_constraints", "mahakalp_sf_doc_search", "mahakalp_sf_releases"]
    ∧ getAllowedTools 0 (some proEnt) =
      ["mahakalp_sf_constraints", "mahakalp_sf_doc_search", "mahakalp_sf_releases",
       "mahakalp_sf_rules", "mahakalp_sf_patterns", "mahakalp_sf_decision_guides"] :=
  ⟨(tool_access_policy_c1 0 none).1 (Or.inl rfl),
   (tool_access_policy_c1 0 (some proEnt)).2 proEnt rfl (Or.inl rfl) rfl⟩

/-- Claim C2: isValid (isEntitlementValid) returns true exactly when the
entitlement is present and its status is active or trialing, or its status
is canceled with `expires_at` strictly greater than the current time; in
particular it is false for an absent entitlement and for status past_due or
deleted, for arbitrary timestamps on either side of now. -/
theorem entitlement_validity_c2 (now : Int) (ent : Option Entitlement) :
    isEntitlementValid now ent = true ↔
      ∃ e, ent = some e ∧
        (e.status = EntitlementStatus.active ∨ e.status = EntitlementStatus.trialing ∨
          (e.status = EntitlementStatus.canceled ∧ e.expires_at > now)) := by
  cases ent with
  | none => simp [isEntitlementValid]
  | some e =>
    cases h : e.status <;> simp [isEntitlementValid, h]

/-- Claim C3 (divergence witness): `isRetryableError` classifies an
`AbortError` as retryable, yet a call whose attempt times out performs
exactly one invocation and propagates the wrapped timeout error without any
retry — the `catch` handler rethrows the wrapped error before the retry
check is reached, contradicting the classifier and the spec. -/
theorem timeout_not_retried_c3 :
    isRetryableError ⟨"AbortError", "The operation was aborted."⟩ = true
    ∧ request ⟨10000, 3, 1000⟩
        (fun _ => FetchOutcome.reject "AbortError" "The operation was aborted." :
          Nat → FetchOutcome Unit) =
      ⟨1, [], Except.error ⟨"Error", "Yantra API request timed out after 10000ms"⟩⟩ :=
  ⟨rfl, rfl⟩

/-- Claim C4: with `maxRetries = N`, a call whose every attempt fails with
a transient-network error (message containing ECONNRESET) performs exactly
N + 1 transport invocations and then propagates that very failure
unchanged. -/
theorem retry_bound_c4 (cfg : SutraConfig) (m : String)
    (h : strIncludes m "ECONNRESET" = true) :
    (request cfg (fun _ => FetchOutcome.reject "Error" m : Nat → FetchOutcome Unit)).invocations
        = cfg.maxRetries + 1
    ∧ (request cfg (fun _ => FetchOutcome.reject "Error" m : Nat → FetchOutcome Unit)).outcome
        = Except.error ⟨"Error", m⟩ := by
  have hretry : isRetryableError ⟨"Error", m⟩ = true := by
    simp [isRetryableError, retryableMessages, h]
  have hall := requestGo_constFail cfg ⟨"Error", m⟩
    (fun _ => FetchOutcome.reject "Error" m : Nat → FetchOutcome Unit) rfl hretry (fun n => rfl)
    cfg.maxRetries 0 (Nat.zero_le _) (by omega)
  rw [request, hall]
  simp

/-- Witness for C4 with `maxRetries = 2` and a concrete ECONNRESET
message: three invocations, original error propagated. -/
theorem retry_bound_c4_witness :
    strIncludes "read ECONNRESET" "ECONNRESET" = true
    ∧ (request ⟨10000, 2, 5⟩
        (fun _ => FetchOutcome.reject "Error" "read ECONNRESET" : Nat → FetchOutcome Unit)).invocations = 2 + 1
    ∧ (request ⟨10000, 2, 5⟩
        (fun _ => FetchOutcome.reject "Error" "read ECONNRESET" : Nat → FetchOutcome Unit)).outcome
        = Except.error ⟨"Error", "read ECONNRESET"⟩ :=
  ⟨by decide,
   (retry_bound_c4 ⟨10000, 2, 5⟩ "read ECONNRESET" (by decide)).1,
   (retry_bound_c4 ⟨10000, 2, 5⟩ "read ECONNRESET" (by decide)).2⟩

/-- Counterexample to C5 as stated: a call receiving a non-success HTTP
status (500, body text ECONNRESET) is retried — two invocations, not one —
because the composed ApiError message matches a transient-network
signature. -/
theorem api_error_retried_c5_cex :
    badBodyTrace 0 = FetchOutcome.httpError 500 (some "ECONNRESET") "Internal Server Error"
    ∧ (request ⟨10000, 1, 1000⟩ badBodyTrace).invocations = 2
    ∧ (request ⟨10000, 1, 1000⟩ badBodyTrace).outcome = Except.ok ()
    ∧ ¬ ((request ⟨10000, 1, 1000⟩ badBodyTrace).invocations = 1) :=
  ⟨rfl, rfl, rfl, by decide⟩

/-- Claim C5 (amended): for every call that receives a non-success HTTP
status on its first attempt whose composed ApiError does not match the
transient-network signatures, exactly one transport invocation is made and
the raised error carries the response status code and, when a non-empty
body text was read, that body text. -/
theorem api_error_single_invocation_c5 {α : Type} (cfg : SutraConfig)
    (status : Nat) (bodyText : Option String) (statusText : String)
    (trace : Nat → FetchOutcome α)
    (htr : trace 0 = FetchOutcome.httpError status bodyText statusText)
    (hnr : isRetryableError (mkApiError status bodyText statusText) = false) :
    request cfg trace = ⟨1, [], Except.error (mkApiError status bodyText statusText)⟩
    ∧ strIncludes (mkApiError status bodyText statusText).message (toString status) = true
    ∧ ∀ t, bodyText = some t → ¬ (t = "") →
        strIncludes (mkApiError status bodyText statusText).message t = true := by
  refine ⟨?_, ?_, ?_⟩
  · have h0 : attemptResult (trace 0) = Except.error (mkApiError status bodyText statusText) := by
      rw [htr]
      rfl
    have hname : ((mkApiError status bodyText statusText).name == "AbortError") = false := rfl
    have hsr : shouldRetry cfg (mkApiError status bodyText statusText) 0 = false := by
      simp [shouldRetry, hnr]
    exact requestGo_noRetry cfg trace cfg.maxRetries 0 _ h0 hname hsr
  · show strIncludes ("Yantra API error " ++ toString status ++ ": " ++ _) (toString status) = true
    rw [strAppend_assoc]
    exact strIncludes_mid _ _ _
  · rintro t rfl hne
    show strIncludes ("Yantra API error " ++ toString status ++ ": " ++
      (if (some t).getD "" = "" then statusText else (some t).getD "")) t = true
    simp only [Option.getD_some]
    rw [if_neg hne]
    exact strIncludes_tail _ _

/-- Witness for amended C5 at a concrete HTTP 401 with empty body. -/
theorem api_error_single_invocation_c5_witness :
    ((fun _ => FetchOutcome.httpError 401 (some "") "Unauthorized" : Nat → FetchOutcome Unit) 0
        = FetchOutcome.httpError 401 (some "") "Unauthorized")
    ∧ isRetryableError (mkApiError 401 (some "") "Unauthorized") = false
    ∧ request ⟨10000, 3, 1000⟩
        (fun _ => FetchOutcome.httpError 401 (some "") "Unauthorized" : Nat → FetchOutcome Unit)
        = ⟨1, [], Except.error (mkApiError 401 (some "") "Unauthorized")⟩ :=
  ⟨rfl, by decide,
   (api_error_single_invocation_c5 ⟨10000, 3, 1000⟩ 401 (some "") "Unauthorized"
      (fun _ => FetchOutcome.httpError 401 (some "") "Unauthorized") rfl (by decide)).1⟩

/-- Claim C6: entitlement resolution never raises: whenever the underlying
request fails (network error, timeout, malformed response), getTier returns
the free-tier fallback with exactly the three free tool names, and
getEntitlement returns absent; a response lacking the entitlement payload
also resolves to absent. -/
theorem entitlement_failsafe_c6 (cfg : SutraConfig)
    (traceT : Nat → FetchOutcome TierResponse)
    (traceE : Nat → FetchOutcome (Option Entitlement)) :
    (∀ err, (request cfg traceT).outcome = Except.error err →
      getTier cfg traceT =
        ⟨ToolTier.free,
         ["mahakalp_sf_constraints", "mahakalp_sf_doc_search", "mahakalp_sf_releases"], ⟨100⟩⟩)
    ∧ (∀ err, (request cfg traceE).outcome = Except.error err → getEntitlement cfg traceE = none)
    ∧ ((request cfg traceE).outcome = Except.ok none → getEntitlement cfg traceE = none) := by
  refine ⟨fun err h => ?_, fun err h => ?_, fun h => ?_⟩
  · simp [getTier, h, FREE_FALLBACK, FREE_TOOLS]
  · simp [getEntitlement, h]
  · simp [getEntitlement, h]

/-- Witness for C6 at a concrete network failure and at a response lacking
the entitlement payload. -/
theorem entitlement_failsafe_c6_witness :
    (request ⟨10000, 3, 1000⟩
        (fun _ => FetchOutcome.reject "Error" "Network error" : Nat → FetchOutcome TierResponse)).outcome
      = Except.error ⟨"Error", "Network error"⟩
    ∧ getTier ⟨10000, 3, 1000⟩ (fun _ => FetchOutcome.reject "Error" "Network error") =
        ⟨ToolTier.free,
         ["mahakalp_sf_constraints", "mahakalp_sf_doc_search", "mahakalp_sf_releases"], ⟨100⟩⟩
    ∧ (request ⟨10000, 3, 1000⟩
        (fun _ => FetchOutcome.ok none : Nat → FetchOutcome (Option Entitlement))).outcome
      = Except.ok none
    ∧ getEntitlement ⟨10000, 3, 1000⟩ (fun _ => FetchOutcome.ok none) = none :=
  ⟨rfl,
   (entitlement_failsafe_c6 ⟨10000, 3, 1000⟩
      (fun _ => FetchOutcome.reject "Error" "Network error")
      (fun _ => FetchOutcome.ok none)).1 ⟨"Error", "Network error"⟩ rfl,
   rfl,
   (entitlement_failsafe_c6 ⟨10000, 3, 1000⟩
      (fun _ => FetchOutcome.reject "Error" "Network error")
      (fun _ => FetchOutcome.ok none)).2.2 rfl⟩

/-- Claim C7: a doc-search call whose arguments contain no query field
returns the structured envelope success:false with error string
"query is required", flagged as an error, and performs zero transport
invocations, for every possible trace (the client is never invoked). -/
theorem doc_search_missing_query_c7 {α : Type} (cfg : SutraConfig)
    (rel : Option String) (topics : Option (List String)) (mr : Option Int)
    (trace : Nat → FetchOutcome α) :
    handleDocSearch cfg ⟨none, rel, topics, mr⟩ trace =
      (⟨ToolContent.envelope false "query is required", true⟩, 0) := rfl

/-- Claim C8: retry backoff is linear — for every trace, the delay waited
before retry attempt n (1-indexed) equals the configured base retry delay
multiplied by n, with no jitter. -/
theorem linear_backoff_c8 {α : Type} (cfg : SutraConfig) (trace : Nat → FetchOutcome α)
    (n : Nat) (h1 : 1 ≤ n) (h2 : n - 1 < (request cfg trace).delays.length) :
    (request cfg trace).delays.get? (n - 1) = some (cfg.retryDelay * n) := by
  rw [request] at h2 ⊢
  have h := requestGo_delays cfg trace cfg.maxRetries 0 (n - 1) h2
  have harith : 0 + 1 + (n - 1) = n := by omega
  rw [harith] at h
  exact h

/-- Witness for C8: second retry of a permanently refused call with base
delay 5 waits 10. -/
theorem linear_backoff_c8_witness :
    (1 ≤ 2)
    ∧ 2 - 1 < (request ⟨10000, 2, 5⟩
        (fun _ => FetchOutcome.reject "Error" "ECONNREFUSED" : Nat → FetchOutcome Unit)).delays.length
    ∧ (request ⟨10000, 2, 5⟩
        (fun _ => FetchOutcome.reject "Error" "ECONNREFUSED" : Nat → FetchOutcome Unit)).delays.get? (2 - 1)
      = some (5 * 2) :=
  ⟨by decide, by decide,
   linear_backoff_c8 ⟨10000, 2, 5⟩
     (fun _ => FetchOutcome.reject "Error" "ECONNREFUSED") 2 (by decide) (by decide)⟩

/-- Claim C9: getConstraints with releaseId spring-26, constraintType
governor_limit and maxResults 10 builds exactly the query string
release_id=spring-26&constraint_type=governor_limit&max_results=10 in that
order with nothing else; and in general every filter left unset is omitted
from the query entirely. -/
theorem constraints_query_string_c9 :
    constraintsQueryString ⟨some "spring-26", some "governor_limit", none, none, some 10⟩
      = "release_id=spring-26&constraint_type=governor_limit&max_results=10"
    ∧ ∀ p : ConstraintsParams,
        (p.releaseId = none → ¬ ("release_id" ∈ (constraintsQueryPairs p).map Prod.fst))
        ∧ (p.constraintType = none → ¬ ("constraint_type" ∈ (constraintsQueryPairs p).map Prod.fst))
        ∧ (p.constraintIds = none → ¬ ("constraint_ids" ∈ (constraintsQueryPairs p).map Prod.fst))
        ∧ (p.context = none → ¬ ("context" ∈ (constraintsQueryPairs p).map Prod.fst))
        ∧ (p.maxResults = none → ¬ ("max_results" ∈ (constraintsQueryPairs p).map Prod.fst)) := by
  constructor
  · rfl
  · intro p
    refine ⟨fun h hmem => ?_, fun h hmem => ?_, fun h hmem => ?_, fun h hmem => ?_, fun h hmem => ?_⟩
    all_goals
      simp only [constraintsQueryPairs, h, jsTruthyStr, jsTruthyList, jsTruthyInt,
        List.map_append, List.mem_append] at hmem
    all_goals
      rcases hmem with (((h1 | h1) | h1) | h1) | h1 <;>
        first
          | (exact absurd (mem_ite_pair h1) (by decide))
          | simp_all

/-- Witness for C9: the all-unset parameter record yields no release_id
key, and the concrete scenario builds the exact query string. -/
theorem constraints_query_string_c9_witness :
    ¬ ("release_id" ∈ (constraintsQueryPairs ⟨none, none, none, none, none⟩).map Prod.fst)
    ∧ constraintsQueryString ⟨some "spring-26", some "governor_limit", none, none, some 10⟩
      = "release_id=spring-26&constraint_type=governor_limit&max_results=10" :=
  ⟨(constraints_query_string_c9.2 ⟨none, none, none, none, none⟩).1 rfl,
   constraints_query_string_c9.1⟩

/-- Claim C10 (implicit): getConstraints also omits a filter set to a falsy
value — maxResults 0, an empty releaseId, constraintType or context string,
or an empty constraintIds array each yield the same query string as the
absent field. -/
theorem constraints_falsy_omitted_c10 (p : ConstraintsParams) :
    constraintsQueryString { p with maxResults := some 0 }
      = constraintsQueryString { p with maxResults := none }
    ∧ constraintsQueryString { p with releaseId := some "" }
      = constraintsQueryString { p with releaseId := none }
    ∧ constraintsQueryString { p with constraintType := some "" }
      = constraintsQueryString { p with constraintType := none }
    ∧ constraintsQueryString { p with context := some "" }
      = constraintsQueryString { p with context := none }
    ∧ constraintsQueryString { p with constraintIds := some [] }
      = constraintsQueryString { p with constraintIds := none } :=
  ⟨rfl, rfl, rfl, rfl, rfl⟩

end Sutra
